import Mathlib

/-
Verification of llama_index/chat_engine/condense_question.py
(CondenseQuestionChatEngine): shallow embedding of the data model and the
chat / achat / stream_chat / astream_chat / from_defaults operations, with
memory passed as explicit state and collaborator calls recorded in a trace.
-/

namespace LlamaIndex

/-- Message roles used by the engine (llama_index.llms.base.MessageRole). -/
inductive MessageRole where
  | system
  | user
  | assistant
deriving DecidableEq, Repr

/-- A chat message: a role together with text content (llama_index.llms.base.ChatMessage). -/
structure ChatMessage where
  role : MessageRole
  content : String
deriving DecidableEq, Repr

/-- Textual form of a role, used when flattening a transcript. -/
def roleStr : MessageRole → String
  | .system => "system"
  | .user => "user"
  | .assistant => "assistant"

/-- Modelled from the spec: messages_to_history_str
(llama_index.llms.generic_utils, not under src/) renders the prior messages
into a flattened textual transcript of role-prefixed lines. -/
def messages_to_history_str (messages : List ChatMessage) : String :=
  String.intercalate "\n" (messages.map (fun m => roleStr m.role ++ ": " ++ m.content))

/-- Query engine response (llama_index.response.schema.RESPONSE_TYPE): either a
plain Response or a StreamingResponse whose response_gen may be absent. The
text argument records what Python str() returns on the object, which the
engine uses only through stringification. -/
inductive RESPONSE_TYPE where
  | response (text : String)
  | streamingResponse (response_gen : Option (List String)) (text : String)
deriving DecidableEq, Repr

/-- Python str() applied to a query engine response. -/
def strResponse : RESPONSE_TYPE → String
  | .response t => t
  | .streamingResponse _ t => t

/-- The check on lines 188-191 / 250-252: the response is streaming-capable iff
it is a StreamingResponse whose response_gen is not None. -/
def streamingCapable : RESPONSE_TYPE → Bool
  | .streamingResponse (some _) _ => true
  | _ => false

/-- The raw_input dict passed to ToolOutput on line 137: a record with the
single key "query". -/
structure RawQueryInput where
  query : String
deriving DecidableEq, Repr

/-- ToolOutput record (llama_index.tools.ToolOutput) as built on lines 134-139. -/
structure ToolOutput where
  content : String
  tool_name : String
  raw_input : RawQueryInput
  raw_output : RESPONSE_TYPE
deriving DecidableEq, Repr

/-- AgentChatResponse: final answer text plus the sources list. -/
structure AgentChatResponse where
  response : String
  sources : List ToolOutput
deriving DecidableEq, Repr

/-- StreamingAgentChatResponse as built on lines 193-198: its chat_stream is
the generator response_gen_with_chat_history(message, memory, response_gen),
represented here by the message it will record and the underlying raw chunk
list; its consumption semantics is consumeStream below. -/
structure StreamingAgentChatResponse where
  stream_message : String
  chat_stream : List String
  sources : List ToolOutput
deriving DecidableEq, Repr

/-- One call to an external collaborator, in the order performed. -/
inductive CallEvent where
  | predict (question : String) (chat_history : String)
  | apredict (question : String) (chat_history : String)
  | query (q : String)
  | aquery (q : String)
deriving DecidableEq, Repr

/-- The engine with its collaborators: the query engine (query/aquery), the
predictor reached through the service context (predict/apredict, taking the
prompt template and the two named slots question and chat_history), and the
condense prompt. Memory is passed to each operation as explicit state
(a list of messages, the full stored sequence), together with a function
giving what memory.get() returns on that state. -/
structure CondenseQuestionChatEngine where
  query : String → RESPONSE_TYPE
  aquery : String → RESPONSE_TYPE
  predict : String → String → String → String
  apredict : String → String → String → String
  condense_question_prompt : String

/-- The default condense template (lines 22-34). -/
def DEFAULT_TEMPLATE : String :=
  "Given a conversation (between Human and Assistant) and a follow up message from Human, rewrite the message to be a standalone question that captures all relevant context from the conversation.\n\n<Chat History> \n\x7bchat_history\x7d\n\n<Follow Up Message>\n\x7bquestion\x7d\n\n<Standalone question>\n"

/-- Modelled from the spec: the memory store contract — put(ChatMessage)
appends one message at the end of the stored sequence. -/
def memPut (mem : List ChatMessage) (m : ChatMessage) : List ChatMessage :=
  mem ++ [m]

/-- Modelled from the spec: get_all() returns the full ordered history. -/
def get_all (mem : List ChatMessage) : List ChatMessage := mem

/-- Python truthiness of the fallback `chat_history = chat_history or
self._memory.get()` (lines 144, 171, 206, 233): both None and an empty list
select the fallback; a non-empty list is used as supplied. -/
def historyOr (chat_history : Option (List ChatMessage)) (fallback : List ChatMessage) :
    List ChatMessage :=
  match chat_history with
  | none => fallback
  | some h => if h.isEmpty then fallback else h

/-- The _condense_question helper (lines 97-112): flatten the history and call
the predictor with the condense prompt, the last message as the question slot
and the transcript as the chat_history slot. -/
def condense_question (e : CondenseQuestionChatEngine)
    (chat_history : List ChatMessage) (last_message : String) : String :=
  e.predict e.condense_question_prompt last_message (messages_to_history_str chat_history)

/-- The _acondense_question helper (lines 114-129): same, through apredict. -/
def acondense_question (e : CondenseQuestionChatEngine)
    (chat_history : List ChatMessage) (last_message : String) : String :=
  e.apredict e.condense_question_prompt last_message (messages_to_history_str chat_history)

/-- The _get_tool_output_from_response helper (lines 131-139). -/
def get_tool_output_from_response (q : String) (response : RESPONSE_TYPE) : ToolOutput :=
  ⟨strResponse response, "query_engine", ⟨q⟩, response⟩

/-- Result of one chat / achat turn: the returned response, the memory state
after the call, and the collaborator calls made, in order. -/
structure ChatStep where
  response : AgentChatResponse
  memory : List ChatMessage
  trace : List CallEvent
deriving DecidableEq, Repr

/-- Result of one stream_chat / astream_chat call: the returned streaming
response or the raised ValueError message, the memory state at return time,
and the collaborator calls made, in order. -/
structure StreamStep where
  result : Except String StreamingAgentChatResponse
  memory : List ChatMessage
  trace : List CallEvent
deriving Repr

/-- The chat operation (lines 141-166). get is what memory.get() returns on a
given stored state; mem is the stored state before the call. -/
def chat (e : CondenseQuestionChatEngine) (get : List ChatMessage → List ChatMessage)
    (mem : List ChatMessage) (message : String)
    (chat_history : Option (List ChatMessage)) : ChatStep :=
  let history := historyOr chat_history (get mem)
  let condensed_question := condense_question e history message
  let query_response := e.query condensed_question
  let tool_output := get_tool_output_from_response condensed_question query_response
  let mem1 := memPut mem ⟨.user, message⟩
  let mem2 := memPut mem1 ⟨.assistant, strResponse query_response⟩
  ⟨⟨strResponse query_response, [tool_output]⟩, mem2,
    [.predict message (messages_to_history_str history), .query condensed_question]⟩

/-- The achat operation (lines 203-228): async mirror of chat, using
_acondense_question (apredict) and aquery. -/
def achat (e : CondenseQuestionChatEngine) (get : List ChatMessage → List ChatMessage)
    (mem : List ChatMessage) (message : String)
    (chat_history : Option (List ChatMessage)) : ChatStep :=
  let history := historyOr chat_history (get mem)
  let condensed_question := acondense_question e history message
  let query_response := e.aquery condensed_question
  let tool_output := get_tool_output_from_response condensed_question query_response
  let mem1 := memPut mem ⟨.user, message⟩
  let mem2 := memPut mem1 ⟨.assistant, strResponse query_response⟩
  ⟨⟨strResponse query_response, [tool_output]⟩, mem2,
    [.apredict message (messages_to_history_str history), .aquery condensed_question]⟩

/-- The stream_chat operation (lines 168-201): same condense and query steps,
then either wrap the response_gen (memory untouched at return time; the
appends live inside the generator, see consumeStream) or raise ValueError. -/
def stream_chat (e : CondenseQuestionChatEngine) (get : List ChatMessage → List ChatMessage)
    (mem : List ChatMessage) (message : String)
    (chat_history : Option (List ChatMessage)) : StreamStep :=
  let history := historyOr chat_history (get mem)
  let condensed_question := condense_question e history message
  let query_response := e.query condensed_question
  let tool_output := get_tool_output_from_response condensed_question query_response
  let tr := [CallEvent.predict message (messages_to_history_str history),
    CallEvent.query condensed_question]
  match query_response with
  | .streamingResponse (some gen) _ =>
      ⟨.ok ⟨message, gen, [tool_output]⟩, mem, tr⟩
  | _ =>
      ⟨.error "Streaming is not enabled. Please use chat() instead.", mem, tr⟩

/-- The astream_chat operation (lines 230-264): async mirror of stream_chat. -/
def astream_chat (e : CondenseQuestionChatEngine) (get : List ChatMessage → List ChatMessage)
    (mem : List ChatMessage) (message : String)
    (chat_history : Option (List ChatMessage)) : StreamStep :=
  let history := historyOr chat_history (get mem)
  let condensed_question := acondense_question e history message
  let query_response := e.aquery condensed_question
  let tool_output := get_tool_output_from_response condensed_question query_response
  let tr := [CallEvent.apredict message (messages_to_history_str history),
    CallEvent.aquery condensed_question]
  match query_response with
  | .streamingResponse (some gen) _ =>
      ⟨.ok ⟨message, gen, [tool_output]⟩, mem, tr⟩
  | _ =>
      ⟨.error "Streaming is not enabled. Please use achat() instead.", mem, tr⟩

/-- Modelled from the spec: response_gen_with_chat_history
(llama_index.chat_engine.utils, not under src/) forwards each chunk unchanged
to the caller while accumulating them, and when the underlying sequence is
exhausted — at the next() request after the final chunk — puts the user
message and then the accumulated text as the assistant message, exactly once.
consumeStream gives the observable effect of issuing n next() requests on the
wrapped generator built over state mem: the chunks yielded so far and the
resulting memory state. -/
def consumeStream (message : String) (mem : List ChatMessage)
    (chunks : List String) (n : Nat) : List String × List ChatMessage :=
  if n ≤ chunks.length then
    (chunks.take n, mem)
  else
    (chunks, memPut (memPut mem ⟨.user, message⟩) ⟨.assistant, String.join chunks⟩)

/-- Constructed state produced by from_defaults: the prompt it stored and the
seeded memory state. -/
structure EngineInit where
  condense_question_prompt : String
  memory : List ChatMessage
deriving DecidableEq, Repr

/-- The from_defaults factory (lines 60-95). Defaulting mirrors the Python
`or` chains on lines 75-78 (a Prompt object and a BaseMemory object are always
truthy, so Option.getD is exact for them; for chat_history, `None or []` and
`[] or []` both give []). ChatMemoryBuffer.from_defaults (not under src/) is
modelled from the spec as a memory seeded with the given history list. The
NotImplementedError checks of lines 80-87 run before any engine object is
built, and no query engine call occurs anywhere in the factory. -/
def from_defaults (condense_question_prompt : Option String)
    (chat_history : Option (List ChatMessage))
    (memory : Option (List ChatMessage))
    (system_prompt : Option String)
    ( prefix_messages : Option (List ChatMessage)) : Except String EngineInit :=
  let cqp := condense_question_prompt.getD DEFAULT_TEMPLATE
  let ch := chat_history.getD []
  let mem := memory.getD ch
  if system_prompt.isSome then
    .error "system_prompt is not supported for CondenseQuestionChatEngine."
  else if prefix_messages.isSome then
    .error "prefix_messages is not supported for CondenseQuestionChatEngine."
  else
    .ok ⟨cqp, mem⟩

/-- The reset operation (lines 266-268): memory is cleared. -/
def reset (_mem : List ChatMessage) : List ChatMessage := []

/-- The chat_history property (lines 270-273): returns memory.get_all(). -/
def chat_history (mem : List ChatMessage) : List ChatMessage := get_all mem

/-- Probe engine for concrete runs: the predictor echoes the transcript slot
and the query engine echoes its question, so the history actually used for
condensing is visible in the final response. -/
def echoEngine : CondenseQuestionChatEngine :=
  ⟨fun q => .response q, fun q => .response q,
   fun _ _ hist => hist, fun _ _ hist => hist, DEFAULT_TEMPLATE⟩

/-- Probe engine whose query engine returns a streaming response with two
chunks. -/
def streamEngine : CondenseQuestionChatEngine :=
  ⟨fun _ => .streamingResponse (some ["Hel", "lo"]) "Hello",
   fun _ => .streamingResponse (some ["Hel", "lo"]) "Hello",
   fun _ q _ => q, fun _ q _ => q, DEFAULT_TEMPLATE⟩

/-- Probe memory.get() returning only a recent/working subset of the stored
history (here: everything but the oldest message), as a token-limited
ChatMemoryBuffer does; get_all still returns the full history. -/
def recentGet (mem : List ChatMessage) : List ChatMessage := mem.drop 1

/-- Probe memory state holding one full prior turn. -/
def memTwo : List ChatMessage := [⟨.user, "hi"⟩, ⟨.assistant, "yo"⟩]

/-- The fallback applied to an explicitly passed value is the identity. -/
lemma historyOr_self (h : List ChatMessage) : historyOr (some h) h = h := by
  simp [historyOr]

/-- stream_chat never touches memory before returning: both branches return
the state unchanged (the appends live inside the generator). -/
lemma stream_chat_memory_unchanged (e : CondenseQuestionChatEngine)
    (g : List ChatMessage → List ChatMessage) (mem : List ChatMessage)
    (message : String) (h : Option (List ChatMessage)) :
    (stream_chat e g mem message h).memory = mem := by
  rcases hr : e.query (condense_question e (historyOr h (g mem)) message) with t | ⟨og, t⟩
  · simp [stream_chat, hr]
  · rcases og with _ | gen <;> simp [stream_chat, hr]

/-- astream_chat never touches memory before returning. -/
lemma astream_chat_memory_unchanged (e : CondenseQuestionChatEngine)
    (g : List ChatMessage → List ChatMessage) (mem : List ChatMessage)
    (message : String) (h : Option (List ChatMessage)) :
    (astream_chat e g mem message h).memory = mem := by
  rcases hr : e.aquery (acondense_question e (historyOr h (g mem)) message) with t | ⟨og, t⟩
  · simp [astream_chat, hr]
  · rcases og with _ | gen <;> simp [astream_chat, hr]

/-- On a response that is not streaming-capable, stream_chat returns the
ValueError directing the caller to chat(). -/
lemma stream_chat_result_error (e : CondenseQuestionChatEngine)
    (g : List ChatMessage → List ChatMessage) (mem : List ChatMessage)
    (message : String) (h : Option (List ChatMessage))
    (hq : streamingCapable (e.query (condense_question e (historyOr h (g mem)) message)) = false) :
    (stream_chat e g mem message h).result =
      .error "Streaming is not enabled. Please use chat() instead." := by
  rcases hr : e.query (condense_question e (historyOr h (g mem)) message) with t | ⟨og, t⟩
  · simp [stream_chat, hr]
  · rcases og with _ | gen
    · simp [stream_chat, hr]
    · rw [hr] at hq
      simp [streamingCapable] at hq

/-- On a response that is not streaming-capable, astream_chat returns the
ValueError directing the caller to achat(). -/
lemma astream_chat_result_error (e : CondenseQuestionChatEngine)
    (g : List ChatMessage → List ChatMessage) (mem : List ChatMessage)
    (message : String) (h : Option (List ChatMessage))
    (hq : streamingCapable (e.aquery (acondense_question e (historyOr h (g mem)) message)) = false) :
    (astream_chat e g mem message h).result =
      .error "Streaming is not enabled. Please use achat() instead." := by
  rcases hr : e.aquery (acondense_question e (historyOr h (g mem)) message) with t | ⟨og, t⟩
  · simp [astream_chat, hr]
  · rcases og with _ | gen
    · simp [astream_chat, hr]
    · rw [hr] at hq
      simp [streamingCapable] at hq

/-- The trace of stream_chat is one predictor call then one query call,
whichever branch is taken. -/
lemma stream_chat_trace_eq (e : CondenseQuestionChatEngine)
    (g : List ChatMessage → List ChatMessage) (mem : List ChatMessage)
    (message : String) (h : Option (List ChatMessage)) :
    (stream_chat e g mem message h).trace =
      [.predict message (messages_to_history_str (historyOr h (g mem))),
       .query (condense_question e (historyOr h (g mem)) message)] := by
  rcases hr : e.query (condense_question e (historyOr h (g mem)) message) with t | ⟨og, t⟩
  · simp [stream_chat, hr]
  · rcases og with _ | gen <;> simp [stream_chat, hr]

/-- The trace of astream_chat is one async predictor call then one async
query call, whichever branch is taken. -/
lemma astream_chat_trace_eq (e : CondenseQuestionChatEngine)
    (g : List ChatMessage → List ChatMessage) (mem : List ChatMessage)
    (message : String) (h : Option (List ChatMessage)) :
    (astream_chat e g mem message h).trace =
      [.apredict message (messages_to_history_str (historyOr h (g mem))),
       .aquery (acondense_question e (historyOr h (g mem)) message)] := by
  rcases hr : e.aquery (acondense_question e (historyOr h (g mem)) message) with t | ⟨og, t⟩
  · simp [astream_chat, hr]
  · rcases og with _ | gen <;> simp [astream_chat, hr]

/-- The result of stream_chat depends only on the history actually selected:
states and get functions selecting the same history give the same result. -/
lemma stream_chat_result_congr (e : CondenseQuestionChatEngine)
    (g g2 : List ChatMessage → List ChatMessage) (mem mem2 : List ChatMessage)
    (message : String) (h h2 : Option (List ChatMessage))
    (hh : historyOr h (g mem) = historyOr h2 (g2 mem2)) :
    (stream_chat e g mem message h).result =
      (stream_chat e g2 mem2 message h2).result := by
  rcases hr : e.query (condense_question e (historyOr h2 (g2 mem2)) message) with t | ⟨og, t⟩
  · simp [stream_chat, hh, hr]
  · rcases og with _ | gen <;> simp [stream_chat, hh, hr]

/-- The result of astream_chat depends only on the history actually
selected. -/
lemma astream_chat_result_congr (e : CondenseQuestionChatEngine)
    (g g2 : List ChatMessage → List ChatMessage) (mem mem2 : List ChatMessage)
    (message : String) (h h2 : Option (List ChatMessage))
    (hh : historyOr h (g mem) = historyOr h2 (g2 mem2)) :
    (astream_chat e g mem message h).result =
      (astream_chat e g2 mem2 message h2).result := by
  rcases hr : e.aquery (acondense_question e (historyOr h2 (g2 mem2)) message) with t | ⟨og, t⟩
  · simp [astream_chat, hh, hr]
  · rcases og with _ | gen <;> simp [astream_chat, hh, hr]

/-- C1: every completed chat (and achat) turn leaves memory equal to its prior
state with exactly two messages appended at the end — first a user message
carrying the input, then an assistant message carrying the stringified query
engine response — so memory length grows by exactly 2 per call, in that
order. -/
theorem chat_memory_two_appends (e : CondenseQuestionChatEngine)
    (g : List ChatMessage → List ChatMessage) (mem : List ChatMessage)
    (message : String) (h : Option (List ChatMessage)) :
    (chat e g mem message h).memory =
      mem ++ [⟨.user, message⟩,
        ⟨.assistant,
          strResponse (e.query (condense_question e (historyOr h (g mem)) message))⟩] ∧
    (chat e g mem message h).memory.length = mem.length + 2 ∧
    (achat e g mem message h).memory =
      mem ++ [⟨.user, message⟩,
        ⟨.assistant,
          strResponse (e.aquery (acondense_question e (historyOr h (g mem)) message))⟩] ∧
    (achat e g mem message h).memory.length = mem.length + 2 := by
  refine ⟨?_, ?_, ?_, ?_⟩ <;>
    simp [chat, achat, memPut, List.append_assoc]

/-- C2: when the query engine returns a streaming response carrying a chunk
sequence, stream_chat returns the wrapped generator over exactly those chunks
with memory untouched at return time; consuming the wrapper forwards every
chunk unchanged and leaves memory unchanged until the sequence is exhausted,
and exhaustion performs the two appends — the user message, then the
concatenation of all chunks as the assistant message — exactly once. -/
theorem stream_chat_deferred_memory_contract (e : CondenseQuestionChatEngine)
    (g : List ChatMessage → List ChatMessage) (mem : List ChatMessage)
    (message : String) (h : Option (List ChatMessage))
    (chunks : List String) (txt : String)
    (hq : e.query (condense_question e (historyOr h (g mem)) message) =
      .streamingResponse (some chunks) txt) :
    (stream_chat e g mem message h).result =
      .ok ⟨message, chunks,
        [get_tool_output_from_response
          (condense_question e (historyOr h (g mem)) message)
          (.streamingResponse (some chunks) txt)]⟩ ∧
    (stream_chat e g mem message h).memory = mem ∧
    (∀ n, n ≤ chunks.length →
      consumeStream message mem chunks n = (chunks.take n, mem)) ∧
    (∀ n, chunks.length < n →
      consumeStream message mem chunks n =
        (chunks,
          mem ++ [⟨.user, message⟩, ⟨.assistant, String.join chunks⟩])) := by
  refine ⟨?_, stream_chat_memory_unchanged e g mem message h, ?_, ?_⟩
  · simp [stream_chat, hq]
  · intro n hn
    simp [consumeStream, hn]
  · intro n hn
    have hn2 : ¬ n ≤ chunks.length := by omega
    simp [consumeStream, hn2, memPut, List.append_assoc]

/-- Witness for C2 at a concrete streaming engine and empty memory. -/
theorem stream_chat_deferred_memory_contract_witness :
    (stream_chat streamEngine get_all [] "m" none).memory = ([] : List ChatMessage) :=
  (stream_chat_deferred_memory_contract streamEngine get_all [] "m" none
    ["Hel", "lo"] "Hello" rfl).2.1

/-- C3: when the query engine response is not streaming-capable, stream_chat
fails with the ValueError directing the caller to chat() (astream_chat to
achat()) and memory is left unmodified. -/
theorem stream_chat_non_streaming_error (e : CondenseQuestionChatEngine)
    (g : List ChatMessage → List ChatMessage) (mem : List ChatMessage)
    (message : String) (h : Option (List ChatMessage))
    (hq : streamingCapable
      (e.query (condense_question e (historyOr h (g mem)) message)) = false)
    (haq : streamingCapable
      (e.aquery (acondense_question e (historyOr h (g mem)) message)) = false) :
    (stream_chat e g mem message h).result =
      .error "Streaming is not enabled. Please use chat() instead." ∧
    (stream_chat e g mem message h).memory = mem ∧
    (astream_chat e g mem message h).result =
      .error "Streaming is not enabled. Please use achat() instead." ∧
    (astream_chat e g mem message h).memory = mem :=
  ⟨stream_chat_result_error e g mem message h hq,
   stream_chat_memory_unchanged e g mem message h,
   astream_chat_result_error e g mem message h haq,
   astream_chat_memory_unchanged e g mem message h⟩

/-- Witness for C3 at a concrete non-streaming engine. -/
theorem stream_chat_non_streaming_error_witness :
    (stream_chat echoEngine get_all memTwo "m" none).memory = memTwo :=
  (stream_chat_non_streaming_error echoEngine get_all memTwo "m" none rfl rfl).2.1

/-- C4 counterexample: with an explicitly supplied empty history list, the
history used for condensing is not the supplied empty list — the echo probe
surfaces the transcript of memory.get(), not the empty transcript. -/
theorem explicit_empty_history_counterexample :
    (chat echoEngine get_all memTwo "m" (some [])).response.response =
      messages_to_history_str (get_all memTwo) ∧
    messages_to_history_str (get_all memTwo) ≠
      messages_to_history_str ([] : List ChatMessage) :=
  ⟨rfl, by decide⟩

/-- C4 (amended): for a non-empty explicit history list, every operation
condenses from exactly the supplied list — the outcome is independent of the
memory.get() function and of the stored memory state — while chat/achat still
append the turn to the prior memory afterward and the stream variants leave
memory unchanged at return time. -/
theorem explicit_history_wins (e : CondenseQuestionChatEngine)
    (g g2 : List ChatMessage → List ChatMessage) (mem mem2 : List ChatMessage)
    (message : String) (h : List ChatMessage) (hne : h ≠ []) :
    (chat e g mem message (some h)).response =
      (chat e g2 mem2 message (some h)).response ∧
    (chat e g mem message (some h)).response.response =
      strResponse (e.query (condense_question e h message)) ∧
    (chat e g mem message (some h)).memory =
      mem ++ [⟨.user, message⟩,
        ⟨.assistant, strResponse (e.query (condense_question e h message))⟩] ∧
    (achat e g mem message (some h)).response =
      (achat e g2 mem2 message (some h)).response ∧
    (achat e g mem message (some h)).memory =
      mem ++ [⟨.user, message⟩,
        ⟨.assistant, strResponse (e.aquery (acondense_question e h message))⟩] ∧
    (stream_chat e g mem message (some h)).result =
      (stream_chat e g2 mem2 message (some h)).result ∧
    (stream_chat e g mem message (some h)).memory = mem ∧
    (astream_chat e g mem message (some h)).result =
      (astream_chat e g2 mem2 message (some h)).result ∧
    (astream_chat e g mem message (some h)).memory = mem := by
  rcases h with _ | ⟨a, t⟩
  · cases hne rfl
  · refine ⟨?_, ?_, ?_, ?_, ?_,
      stream_chat_result_congr e g g2 mem mem2 message (some (a :: t)) (some (a :: t))
        (by simp [historyOr]),
      stream_chat_memory_unchanged e g mem message (some (a :: t)),
      astream_chat_result_congr e g g2 mem mem2 message (some (a :: t)) (some (a :: t))
        (by simp [historyOr]),
      astream_chat_memory_unchanged e g mem message (some (a :: t))⟩ <;>
      simp [chat, achat, historyOr, memPut, List.append_assoc]

/-- Witness for C4 (amended) at a concrete non-empty explicit history. -/
theorem explicit_history_wins_witness :
    (chat echoEngine recentGet memTwo "m" (some [⟨.user, "q"⟩])).memory =
      memTwo ++ [⟨.user, "m"⟩,
        ⟨.assistant,
          strResponse (echoEngine.query
            (condense_question echoEngine [⟨.user, "q"⟩] "m"))⟩] :=
  (explicit_history_wins echoEngine recentGet get_all memTwo memTwo "m"
    [⟨.user, "q"⟩] (by decide)).2.2.1

/-- C5: explicitly passing an empty history list selects the truthiness
fallback — the call reads memory.get() and behaves exactly as if no history
argument had been supplied, for all four operations. -/
theorem empty_history_behaves_as_none (e : CondenseQuestionChatEngine)
    (g : List ChatMessage → List ChatMessage) (mem : List ChatMessage)
    (message : String) :
    historyOr (some ([] : List ChatMessage)) (g mem) = g mem ∧
    chat e g mem message (some []) = chat e g mem message none ∧
    achat e g mem message (some []) = achat e g mem message none ∧
    stream_chat e g mem message (some []) = stream_chat e g mem message none ∧
    astream_chat e g mem message (some []) = astream_chat e g mem message none :=
  ⟨rfl, rfl, rfl, rfl, rfl⟩

/-- C6 counterexample: with a memory whose get() returns only a recent subset
of the stored history, chat with no history argument condenses from get(),
which differs from the full get_all() transcript. -/
theorem history_source_not_get_all_counterexample :
    (chat echoEngine recentGet memTwo "m" none).response.response =
      messages_to_history_str (recentGet memTwo) ∧
    messages_to_history_str (recentGet memTwo) ≠
      messages_to_history_str (get_all memTwo) :=
  ⟨rfl, by decide⟩

/-- C6 (amended): when no history argument is supplied, the history used for
condensing is the memory store's get() value — each operation behaves exactly
as when that value is passed explicitly — which coincides with get_all() only
when get returns the full history. -/
theorem no_history_uses_memory_get (e : CondenseQuestionChatEngine)
    (g : List ChatMessage → List ChatMessage) (mem : List ChatMessage)
    (message : String) :
    historyOr none (g mem) = g mem ∧
    chat e g mem message none = chat e g mem message (some (g mem)) ∧
    achat e g mem message none = achat e g mem message (some (g mem)) ∧
    stream_chat e g mem message none = stream_chat e g mem message (some (g mem)) ∧
    astream_chat e g mem message none =
      astream_chat e g mem message (some (g mem)) := by
  refine ⟨rfl, ?_, ?_, ?_, ?_⟩ <;>
    simp [chat, achat, stream_chat, astream_chat, historyOr_self, historyOr]

/-- C7: from_defaults fails with the NotImplementedError message when
system_prompt or prefix_messages is supplied — no engine object is returned
and no query engine interaction occurs, since the factory never invokes the
query engine — while with both absent it succeeds with the defaulted prompt,
seed history and memory; with everything omitted it yields the default
template and an empty seeded memory. -/
theorem from_defaults_contract (cqp : Option String)
    (ch memo : Option (List ChatMessage)) (sp : Option String)
    (pm : Option (List ChatMessage)) (hb : sp.isSome ∨ pm.isSome) :
    (∃ msg, from_defaults cqp ch memo sp pm = .error msg) ∧
    from_defaults cqp ch memo none none =
      .ok ⟨cqp.getD DEFAULT_TEMPLATE, memo.getD (ch.getD [])⟩ ∧
    from_defaults none none none none none = .ok ⟨DEFAULT_TEMPLATE, []⟩ := by
  refine ⟨?_, by simp [from_defaults], rfl⟩
  rcases hb with hb | hb
  · exact ⟨"system_prompt is not supported for CondenseQuestionChatEngine.",
      by simp [from_defaults, hb]⟩
  · cases hsp : sp.isSome
    · exact ⟨"prefix_messages is not supported for CondenseQuestionChatEngine.",
        by simp [from_defaults, hsp, hb]⟩
    · exact ⟨"system_prompt is not supported for CondenseQuestionChatEngine.",
        by simp [from_defaults, hsp]⟩

/-- Witness for C7 at a concrete supplied system_prompt. -/
theorem from_defaults_contract_witness :
    ∃ msg, from_defaults none none none (some "sys") none = .error msg :=
  (from_defaults_contract none none none (some "sys") none (Or.inl rfl)).1

/-- C8: the response returned by chat carries exactly one ToolOutput whose
content is the stringified query engine response, whose tool_name is
"query_engine", whose raw_input is the record with query set to the condensed
standalone question and whose raw_output is the original response object; the
response text equals the same stringified response. -/
theorem chat_tool_output_shape (e : CondenseQuestionChatEngine)
    (g : List ChatMessage → List ChatMessage) (mem : List ChatMessage)
    (message : String) (h : Option (List ChatMessage)) :
    (chat e g mem message h).response =
      ⟨strResponse (e.query (condense_question e (historyOr h (g mem)) message)),
       [⟨strResponse (e.query (condense_question e (historyOr h (g mem)) message)),
         "query_engine",
         ⟨condense_question e (historyOr h (g mem)) message⟩,
         e.query (condense_question e (historyOr h (g mem)) message)⟩]⟩ :=
  rfl

/-- C9: whenever the async predictor agrees with the sync predictor and the
async query call agrees with the sync query call, achat returns the same
response (text and ToolOutput sources) and the same memory as chat, and
astream_chat returns the same success payload and the same memory as
stream_chat. -/
theorem async_mirrors_sync (e : CondenseQuestionChatEngine)
    (g : List ChatMessage → List ChatMessage) (mem : List ChatMessage)
    (message : String) (h : Option (List ChatMessage))
    (hp : e.apredict = e.predict) (hq : e.aquery = e.query) :
    (achat e g mem message h).response = (chat e g mem message h).response ∧
    (achat e g mem message h).memory = (chat e g mem message h).memory ∧
    (astream_chat e g mem message h).result.toOption =
      (stream_chat e g mem message h).result.toOption ∧
    (astream_chat e g mem message h).memory =
      (stream_chat e g mem message h).memory := by
  have hc : ∀ hist msg, acondense_question e hist msg = condense_question e hist msg :=
    fun hist msg => by simp [acondense_question, condense_question, hp]
  refine ⟨?_, ?_, ?_, ?_⟩
  · simp [chat, achat, hc, hq]
  · simp [chat, achat, hc, hq]
  · rcases hr : e.query (condense_question e (historyOr h (g mem)) message) with t | ⟨og, t⟩
    · simp [stream_chat, astream_chat, hc, hq, hr, Except.toOption]
    · rcases og with _ | gen <;>
        simp [stream_chat, astream_chat, hc, hq, hr, Except.toOption]
  · exact (astream_chat_memory_unchanged e g mem message h).trans
      (stream_chat_memory_unchanged e g mem message h).symm

/-- Witness for C9 at a concrete engine whose async collaborators are the
sync ones. -/
theorem async_mirrors_sync_witness :
    (achat echoEngine get_all memTwo "m" none).response =
      (chat echoEngine get_all memTwo "m" none).response :=
  (async_mirrors_sync echoEngine get_all memTwo "m" none rfl rfl).1

/-- C10: a stream_chat (or astream_chat) call that fails with the
non-streaming usage error has a trace of exactly one predictor call followed
by one query engine call on the condensed question — the error can only arise
after both collaborators have been invoked. -/
theorem stream_error_after_predict_and_query (e : CondenseQuestionChatEngine)
    (g : List ChatMessage → List ChatMessage) (mem : List ChatMessage)
    (message : String) (h : Option (List ChatMessage))
    (hq : streamingCapable
      (e.query (condense_question e (historyOr h (g mem)) message)) = false)
    (haq : streamingCapable
      (e.aquery (acondense_question e (historyOr h (g mem)) message)) = false) :
    ((∃ msg, (stream_chat e g mem message h).result = .error msg) ∧
     (stream_chat e g mem message h).trace =
       [.predict message (messages_to_history_str (historyOr h (g mem))),
        .query (condense_question e (historyOr h (g mem)) message)]) ∧
    ((∃ msg, (astream_chat e g mem message h).result = .error msg) ∧
     (astream_chat e g mem message h).trace =
       [.apredict message (messages_to_history_str (historyOr h (g mem))),
        .aquery (acondense_question e (historyOr h (g mem)) message)]) :=
  ⟨⟨⟨_, stream_chat_result_error e g mem message h hq⟩,
    stream_chat_trace_eq e g mem message h⟩,
   ⟨⟨_, astream_chat_result_error e g mem message h haq⟩,
    astream_chat_trace_eq e g mem message h⟩⟩

/-- Witness for C10 at a concrete non-streaming engine. -/
theorem stream_error_after_predict_and_query_witness :
    ∃ msg, (stream_chat echoEngine get_all memTwo "m" none).result = .error msg :=
  (stream_error_after_predict_and_query echoEngine get_all memTwo "m" none
    rfl rfl).1.1

end LlamaIndex
